import Mathlib

/-!
Shallow embedding of auto-veto.cc (MJD veto data processing).

The embedding follows the source file function by function:

* CheckEventErrors (lines 1019-1131): the per-event error classifier.
  The MJVetoEvent record is external to the repository (MJVetoEvent.hh);
  its fields read by this file are modelled as free inputs: the 18
  structural error flags GetError(0..17), the bad-scaler flag, the run
  number, the two clocks GetTimeSec / GetTimeSBC (C++ doubles, modelled
  as rationals), the entry index GetEntry, and the three counters
  GetSEC / GetQEC / GetQEC2.
* InterpTime (lines 925-948): timestamp interpolation over the parallel
  time / entry / bad-scaler tables.
* PanelMap (lines 950-1010): channel to plane map.
* FindPanelThreshold (lines 911-923): per-channel QDC threshold finder.
  The ROOT histogram primitives (FindFirstBinAbove, SetRange,
  GetMaximumBin, GetBinCenter) are modelled on the concrete histogram
  geometry used by the caller (500 bins of width 1 over [0,500), so the
  0-indexed amplitude bin a is ROOT bin a+1 with center a + 1/2).
* The energy cut, the plane-coincidence classification block, and the
  run-level LED-period adjustment from ProcessVetoData.
-/

/-- The fields of the external MJVetoEvent record that auto-veto.cc reads.
C++ doubles are modelled as rationals, ints and longs as integers. -/
structure MJVetoEvent where
  errs : Fin 18 → Bool
  badScaler : Bool
  run : ℤ
  timeSBC : ℚ
  timeSec : ℚ
  entry : ℤ
  sec : ℤ
  qec : ℤ
  qec2 : ℤ

/-- MJVetoEvent::GetError(q) for q in 0..17, the pre-decoded structural
flags; out-of-range indices read false. -/
def MJVetoEvent.getError (v : MJVetoEvent) (q : ℕ) : Bool :=
  if h : q < 18 then v.errs ⟨q, h⟩ else false

/-- The blocking structural slot test from the loop at lines 1072-1075:
q is one of 1, 2, 3, 5, 6, 9, 13, 14. -/
def blockingStruct (q : ℕ) : Bool :=
  q == 1 || q == 2 || q == 3 || q == 5 || q == 6 || q == 9 || q == 13 || q == 14

/-- Lines 1072-1075: skip is set if any blocking structural flag among
slots 0..17 is set. -/
def skipStruct (v : MJVetoEvent) : Bool :=
  (List.range 18).any fun q => v.getError q && blockingStruct q

/-- Lines 1077-1078: the advisory slot 25 rule, set when the scaler is bad
and the SBC clock cannot replace it (run before 8557 or SBC overflow). -/
def slot25Rule (v : MJVetoEvent) : Bool :=
  v.badScaler && (decide (v.run < 8557) || decide (2000000000 < v.timeSBC))

/-- Line 1093: SBCOffset = first.GetTimeSBC() - first.GetTimeSec(). -/
def sbcOffset (first : MJVetoEvent) : ℚ :=
  first.timeSBC - first.timeSec

/-- Lines 1097-1100: scaler / SBC timestamp desynchronization (slot 18). -/
def err18 (v prev first : MJVetoEvent) : Bool :=
  decide (0 < v.timeSec) && decide (0 < v.timeSBC - sbcOffset first) &&
  decide (sbcOffset first ≠ 0) && !(v.getError 1) &&
  decide (first.entry < v.entry) &&
  decide (2 < |(v.timeSec - prev.timeSec) -
    ((v.timeSBC - sbcOffset first) - (prev.timeSBC - sbcOffset first))|)

/-- Lines 1102-1103: scaler event count reset (slot 19). -/
def err19 (v first : MJVetoEvent) : Bool :=
  decide (v.sec = 0) && decide (v.entry ≠ 0) && decide (first.entry < v.entry)

/-- Lines 1105-1107: scaler event count jump (slot 20). -/
def err20 (v prev first : MJVetoEvent) (pg : ℤ) : Bool :=
  decide (v.entry - pg < |v.sec - prev.sec|) &&
  decide (first.entry < v.entry) && decide (v.sec ≠ 0)

/-- Lines 1109-1110: QDC1 event count reset (slot 21). -/
def err21 (v first : MJVetoEvent) : Bool :=
  decide (v.qec = 0) && decide (v.entry ≠ 0) &&
  decide (first.entry < v.entry) && !(v.getError 1)

/-- Lines 1112-1114: QDC1 event count jump (slot 22). -/
def err22 (v prev first : MJVetoEvent) (pg : ℤ) : Bool :=
  decide (v.entry - pg < |v.qec - prev.qec|) &&
  decide (first.entry < v.entry) && decide (v.qec ≠ 0)

/-- Lines 1116-1117: QDC2 event count reset (slot 23). -/
def err23 (v first : MJVetoEvent) : Bool :=
  decide (v.qec2 = 0) && decide (v.entry ≠ 0) &&
  decide (first.entry < v.entry) && !(v.getError 1)

/-- Lines 1119-1121: QDC2 event count jump (slot 24). -/
def err24 (v prev first : MJVetoEvent) (pg : ℤ) : Bool :=
  decide (v.entry - pg < |v.qec2 - prev.qec2|) &&
  decide (first.entry < v.entry) && decide (v.qec2 ≠ 0)

/-- The slot q of the error vector returned by CheckEventErrors: slots
0..17 copy the structural flags (line 1070), slot 25 follows the
bad-scaler rule (lines 1077-1078), the synchronization slots 18..24 stay
false when the first-good sentinel -1 is still in place (early return at
line 1091) and otherwise follow the checks at lines 1097-1121; slots
26..28 are never written and stay false. -/
def errorSet (v prev first : MJVetoEvent) (pg : ℤ) (q : ℕ) : Bool :=
  if q < 18 then v.getError q
  else if q = 25 then slot25Rule v
  else if first.entry = -1 then false
  else if q = 18 then err18 v prev first
  else if q = 19 then err19 v first
  else if q = 20 then err20 v prev first pg
  else if q = 21 then err21 v first
  else if q = 22 then err22 v prev first pg
  else if q = 23 then err23 v first
  else if q = 24 then err24 v prev first pg
  else false

/-- The skip flag returned by CheckEventErrors: blocking structural flags
(lines 1072-1075), plus, once the first-good event is known, the blocking
synchronization slots 18..24 (lines 1124-1127). -/
def checkSkip (v prev first : MJVetoEvent) (pg : ℤ) : Bool :=
  skipStruct v ||
  (if first.entry = -1 then false
   else err18 v prev first || err19 v first || err20 v prev first pg ||
     err21 v first || err22 v prev first pg || err23 v first ||
     err24 v prev first pg)

/-- CheckEventErrors (lines 1019-1131): returns the skip flag and the
29-slot error vector that the C++ writes into its ErrorVec reference
output parameter. -/
def checkEventErrors (v prev first : MJVetoEvent) (pg : ℤ) : Bool × List Bool :=
  (checkSkip v prev first pg, List.ofFn fun q : Fin 29 => errorSet v prev first pg q)

/-- The blocking slot indices named by the specification: the structural
set plus the synchronization slots 18..24. -/
def blockingSlots : List ℕ :=
  [1, 2, 3, 5, 6, 9, 13, 14, 18, 19, 20, 21, 22, 23, 24]

/-- Forward scan of InterpTime (lines 941-942): from the current entry to
the end of the tables, take the time of the first entry whose bad-scaler
flag is clear; the C++ local upper stays 0 when no such entry exists. -/
def scanUpper (times : List ℚ) (bad : List Bool) (entry n : ℕ) : ℚ :=
  match (List.range' entry (n - entry)).find? (fun i => bad.getD i true == false) with
  | some i => times.getD i 0
  | none => 0

/-- Backward scan of InterpTime (lines 943-944): from the current entry
down to index 1 (the loop condition j greater than 0 never examines index
0), take the time of the first entry whose bad-scaler flag is clear; the
C++ local lower stays 0 when no such entry is found. -/
def scanLower (times : List ℚ) (bad : List Bool) (entry : ℕ) : ℚ :=
  match (List.range' 1 entry).reverse.find? (fun j => bad.getD j true == false) with
  | some j => times.getD j 0
  | none => 0

/-- InterpTime (lines 925-948). The C++ int entry is only ever called with
a nonnegative stream index, modelled as a natural number. The forward loop
bound is the length of the entries table, as in the source. -/
def InterpTime (entry : ℕ) (times entries : List ℚ) (bad : List Bool) : ℚ :=
  if times.length ≠ entries.length ∨ times.length ≠ bad.length then -1
  else if bad.getD entry true == false then times.getD entry 0
  else (scanUpper times bad entry entries.length + scanLower times bad entry) / 2

/-- PanelMap (lines 950-1010): the if-else chain mapping a channel index
to one of the 12 logical planes, with -1 as the fallthrough value. -/
def panelMap (i : ℤ) : ℤ :=
  if i = 0 then 0
  else if i = 1 then 0
  else if i = 2 then 0
  else if i = 3 then 0
  else if i = 4 then 0
  else if i = 5 then 0
  else if i = 6 then 1
  else if i = 7 then 1
  else if i = 8 then 1
  else if i = 9 then 1
  else if i = 10 then 1
  else if i = 11 then 1
  else if i = 17 then 3
  else if i = 18 then 3
  else if i = 20 then 2
  else if i = 21 then 2
  else if i = 15 then 5
  else if i = 16 then 5
  else if i = 19 then 4
  else if i = 23 then 4
  else if i = 24 then 6
  else if i = 25 then 7
  else if i = 26 then 6
  else if i = 27 then 7
  else if i = 12 then 8
  else if i = 13 then 8
  else if i = 14 then 9
  else if i = 22 then 9
  else if i = 28 then 10
  else if i = 29 then 11
  else if i = 30 then 10
  else if i = 31 then 11
  else -1

/-- The energy cut block of ProcessVetoData (lines 779-785): count the
channels whose QDC amplitude strictly exceeds 500 and set the cut when at
least two do. The software thresholds are in scope in the C++ but unread
by this block; the unused parameter records that. -/
def energyCut (swThresh : Fin 32 → ℤ) (qdc : Fin 32 → ℤ) : Bool :=
  decide (2 ≤ (Finset.univ.filter fun q : Fin 32 => 500 < qdc q).card)

/-- Coincidence type 1, vertical (lines 823-827): both bottom planes and
both top planes hit. -/
def ctVertical (pt : Fin 12 → Bool) : Bool :=
  pt 0 && pt 1 && pt 2 && pt 3

/-- Coincidence type 2, side plus bottom (lines 828-833): both bottom
planes hit, and one of the five inner-outer pairs hit, the top pair 2,3
included in the disjunction exactly as in the source. -/
def ctSideBottom (pt : Fin 12 → Bool) : Bool :=
  (pt 0 && pt 1) &&
  ((pt 2 && pt 3) || (pt 4 && pt 5) || (pt 6 && pt 7) || (pt 8 && pt 9) || (pt 10 && pt 11))

/-- Coincidence type 3, top plus sides (lines 834-839): both top planes
hit and one lateral inner-outer pair hit. -/
def ctTopSides (pt : Fin 12 → Bool) : Bool :=
  (pt 2 && pt 3) &&
  ((pt 4 && pt 5) || (pt 6 && pt 7) || (pt 8 && pt 9) || (pt 10 && pt 11))

/-- The CoinType vector written by the muon identification block
(lines 816-851): entries are zeroed, and only when both the time cut and
the energy cut pass are slots 0..3 set from the plane-hit vector. -/
def coinType (timeCut energyC : Bool) (pt : Fin 12 → Bool) (r : ℕ) : Bool :=
  if timeCut && energyC then
    if r = 0 then true
    else if r = 1 then ctVertical pt
    else if r = 2 then ctSideBottom pt
    else if r = 3 then ctTopSides pt
    else false
  else false

/-- The lateral-pair condition of the specification: a fully hit north,
south, west or east inner-outer pair. Stated from the spec wording, for
comparison against the source translation ctSideBottom. -/
def lateralPairHit (pt : Fin 12 → Bool) : Bool :=
  (pt 4 && pt 5) || (pt 6 && pt 7) || (pt 8 && pt 9) || (pt 10 && pt 11)

/-- The result of the run-level LED period adjustment: the period and the
bad-frequency flag. -/
structure LEDPeriodResult where
  period : ℚ
  bad : Bool
deriving DecidableEq, Repr

/-- The short-run LED period fallback of ProcessVetoData (lines 436-448):
when the derived period exceeds 9 seconds or the run has fewer than 100
entries, the period is recomputed as duration over simpleLEDCount if
simpleLEDCount exceeds 3, and otherwise set to the 9999 sentinel with the
bad-frequency flag raised. -/
def adjustLEDPeriod (period : ℚ) (vEntries : ℤ) (simpleLEDCount : ℤ) (duration : ℚ)
    (bad : Bool) : LEDPeriodResult :=
  if 9 < period ∨ vEntries < 100 then
    if 3 < simpleLEDCount then ⟨duration / (simpleLEDCount : ℚ), bad⟩
    else ⟨9999, true⟩
  else ⟨period, bad⟩

/-- ROOT TH1D::FindFirstBinAbove(1) on the 500-bin QDC histogram of
VetoThreshFinder, in 0-indexed amplitude bins: the first bin whose count
strictly exceeds the noise floor of 1, none when no bin does. -/
def findFirstBinAbove (cnt : ℕ → ℕ) : Option ℕ :=
  (List.range 500).find? fun a => decide (1 < cnt a)

/-- One step of the ROOT TH1::GetMaximumBin scan: keep the first bin
whose count strictly exceeds the running maximum. -/
def maxBinStep (cnt : ℕ → ℕ) (acc : Option (ℕ × ℕ)) (b : ℕ) : Option (ℕ × ℕ) :=
  match acc with
  | none => some (b, cnt b)
  | some (mb, mv) => if mv < cnt b then some (b, cnt b) else some (mb, mv)

/-- The ROOT TH1::GetMaximumBin scan over a list of bins. -/
def maxBinFold (cnt : ℕ → ℕ) (l : List ℕ) : Option (ℕ × ℕ) :=
  l.foldl (maxBinStep cnt) none

/-- ROOT TH1::GetMaximumBin over the restricted axis range lo..hi of
0-indexed amplitude bins. -/
def getMaximumBin (cnt : ℕ → ℕ) (lo hi : ℕ) : ℕ :=
  match maxBinFold cnt (List.range' lo (hi + 1 - lo)) with
  | some (mb, _) => mb
  | none => 0

/-- FindPanelThreshold (lines 911-923) on the 500-bin width-1 QDC
histogram: the run-era channel-disable rule, then the first bin above the
noise floor; -1 when none exists (the source computes the dead SetRange
and GetMaximumBin calls before testing -1, with the same result); else
the first maximal bin of the window of 10 bins below to 50 bins above,
clamped to the axis, and the returned int truncates bin center plus
threshVal, that is floor of (mode + 1/2 + threshVal). -/
def FindPanelThreshold (cnt : ℕ → ℕ) (threshVal panel runNum : ℤ) : ℤ :=
  if 45000000 < runNum ∧ 23 < panel then 9999
  else
    match findFirstBinAbove cnt with
    | none => -1
    | some a =>
      ⌊(getMaximumBin cnt (a - 10) (min (a + 50) 499) : ℚ) + 1 / 2 + (threshVal : ℚ)⌋

/-- A concrete all-clear event used by witnesses and counterexamples. -/
def evZero : MJVetoEvent :=
  { errs := fun _ => false, badScaler := false, run := 0, timeSBC := 0, timeSec := 0,
    entry := 0, sec := 0, qec := 0, qec2 := 0 }

/-- A first-good snapshot still holding the sentinel entry -1. -/
def evFirstPending : MJVetoEvent :=
  { evZero with entry := -1 }

/-- An event with a bad scaler in an early run, which triggers the
advisory slot 25 rule. -/
def evBadScalerEarly : MJVetoEvent :=
  { evZero with badScaler := true, run := 8000 }

/-- An event whose structural flags are all raised, flag 0 included. -/
def evAllFlags : MJVetoEvent :=
  { evZero with errs := fun _ => true }

/-- A plane-hit vector with both bottom and both top planes hit and no
lateral plane hit. -/
def ptTopBottom : Fin 12 → Bool :=
  fun k => decide ((k : ℕ) < 4)

/-- A concrete QDC amplitude histogram: count 5 at amplitude 40, count 7
at amplitude 45, zero elsewhere. -/
def cntEx : ℕ → ℕ :=
  fun a => if a = 40 then 5 else if a = 45 then 7 else 0

theorem range18_eq :
    List.range 18 = [0, 1, 2, 3, 4, 5, 6, 7, 8, 9, 10, 11, 12, 13, 14, 15, 16, 17] := by
  decide

theorem skipStruct_iff (v : MJVetoEvent) :
    skipStruct v = true ↔
      (v.getError 1 = true ∨ v.getError 2 = true ∨ v.getError 3 = true ∨
       v.getError 5 = true ∨ v.getError 6 = true ∨ v.getError 9 = true ∨
       v.getError 13 = true ∨ v.getError 14 = true) := by
  simp only [skipStruct, range18_eq, List.any_cons, List.any_nil, blockingStruct,
    Bool.or_eq_true, Bool.and_eq_true]
  norm_num

theorem getD_ofFn29 (f : ℕ → Bool) (q : ℕ) (hq : q < 29) :
    (List.ofFn fun i : Fin 29 => f i).getD q false = f q := by
  rw [List.getD_eq_getElem (List.ofFn fun i : Fin 29 => f i) false (by simpa using hq),
    List.getElem_ofFn]

/-- C1: for every event, previous snapshot, first-good snapshot and
previous-good entry index, CheckEventErrors returns skip = true exactly
when some blocking slot (1, 2, 3, 5, 6, 9, 13, 14 or 18..24) of the
returned error vector is true. -/
theorem checkEventErrors_skip_iff_blocking (v prev first : MJVetoEvent) (pg : ℤ) :
    (checkEventErrors v prev first pg).1 = true ↔
      ∃ q ∈ blockingSlots, (checkEventErrors v prev first pg).2.getD q false = true := by
  have hvec : ∀ q : ℕ, q < 29 →
      (checkEventErrors v prev first pg).2.getD q false = errorSet v prev first pg q :=
    fun q hq => getD_ofFn29 _ q hq
  have hmem : (∃ q ∈ blockingSlots, (checkEventErrors v prev first pg).2.getD q false = true) ↔
      (errorSet v prev first pg 1 = true ∨ errorSet v prev first pg 2 = true ∨
       errorSet v prev first pg 3 = true ∨ errorSet v prev first pg 5 = true ∨
       errorSet v prev first pg 6 = true ∨ errorSet v prev first pg 9 = true ∨
       errorSet v prev first pg 13 = true ∨ errorSet v prev first pg 14 = true ∨
       errorSet v prev first pg 18 = true ∨ errorSet v prev first pg 19 = true ∨
       errorSet v prev first pg 20 = true ∨ errorSet v prev first pg 21 = true ∨
       errorSet v prev first pg 22 = true ∨ errorSet v prev first pg 23 = true ∨
       errorSet v prev first pg 24 = true) := by
    simp only [blockingSlots, List.mem_cons, List.not_mem_nil, or_false, exists_eq_or_imp,
      exists_eq_left]
    rw [hvec 1 (by norm_num), hvec 2 (by norm_num), hvec 3 (by norm_num),
      hvec 5 (by norm_num), hvec 6 (by norm_num), hvec 9 (by norm_num),
      hvec 13 (by norm_num), hvec 14 (by norm_num), hvec 18 (by norm_num),
      hvec 19 (by norm_num), hvec 20 (by norm_num), hvec 21 (by norm_num),
      hvec 22 (by norm_num), hvec 23 (by norm_num), hvec 24 (by norm_num)]
  rw [hmem]
  show checkSkip v prev first pg = true ↔ _
  by_cases hs : first.entry = -1
  · simp [checkSkip, errorSet, hs, skipStruct_iff]
  · simp [checkSkip, errorSet, hs, skipStruct_iff, or_assoc]

/-- C4 (amended): when the first-good entry index still holds the
sentinel -1, CheckEventErrors returns with every synchronization slot
18..24 false; the advisory slot 25 is set independently of the sentinel,
by the bad-scaler rule of lines 1077-1078. -/
theorem checkEventErrors_sentinel (v prev first : MJVetoEvent) (pg : ℤ)
    (h : first.entry = -1) :
    (∀ q : ℕ, 18 ≤ q → q ≤ 24 →
      (checkEventErrors v prev first pg).2.getD q false = false) ∧
    (checkEventErrors v prev first pg).2.getD 25 false = slot25Rule v := by
  constructor
  · intro q h1 h2
    have e : (checkEventErrors v prev first pg).2.getD q false = errorSet v prev first pg q :=
      getD_ofFn29 _ q (by omega)
    rw [e]
    interval_cases q <;> simp [errorSet, h]
  · have e : (checkEventErrors v prev first pg).2.getD 25 false = errorSet v prev first pg 25 :=
      getD_ofFn29 _ 25 (by norm_num)
    rw [e]
    simp [errorSet]

theorem checkEventErrors_sentinel_witness :
    (checkEventErrors evZero evZero evFirstPending 0).2.getD 18 false = false :=
  (checkEventErrors_sentinel evZero evZero evFirstPending 0 rfl).1 18 (by norm_num)
    (by norm_num)

/-- C4 counterexample: with the first-good sentinel -1 in place, the
advisory slot 25 of the returned vector is nevertheless true for a
bad-scaler event of an early run, refuting the claim that every slot
18..25 is false on the sentinel path. -/
theorem checkEventErrors_sentinel_cx :
    evFirstPending.entry = -1 ∧
    (checkEventErrors evBadScalerEarly evZero evFirstPending 0).2.getD 25 false = true := by
  exact ⟨rfl, by decide⟩

/-- C5 (amended): the error vector returned by CheckEventErrors always
has length 29, and its slot 0 equals structural flag 0 of the event (the
loop at line 1070 copies flags 0..17 into slots 0..17); in particular
slot 0 is false whenever the decoded flag 0 is false. -/
theorem checkEventErrors_length_slot0 (v prev first : MJVetoEvent) (pg : ℤ) :
    (checkEventErrors v prev first pg).2.length = 29 ∧
    (checkEventErrors v prev first pg).2.getD 0 false = v.getError 0 := by
  refine ⟨by simp [checkEventErrors], ?_⟩
  have e : (checkEventErrors v prev first pg).2.getD 0 false = errorSet v prev first pg 0 :=
    getD_ofFn29 _ 0 (by norm_num)
  rw [e]
  simp [errorSet]

/-- C5 counterexample: an event whose structural flag 0 is true yields a
returned vector whose slot 0 is true, refuting the claim that slot 0 is
false regardless of the 18 structural flags. -/
theorem checkEventErrors_slot0_cx :
    (checkEventErrors evAllFlags evZero evFirstPending 0).2.getD 0 false = true := by
  decide

/-- C8: CheckEventErrors is deterministic: identical inputs produce
identical (skip, error vector) results. The embedding is a pure function
of its four arguments, mirroring the C++ signature that takes the three
events and the index by value and touches no state beyond its reference
output parameter. -/
theorem checkEventErrors_deterministic (v prev first v2 prev2 first2 : MJVetoEvent)
    (pg pg2 : ℤ) (hv : v = v2) (hp : prev = prev2) (hf : first = first2) (hg : pg = pg2) :
    checkEventErrors v prev first pg = checkEventErrors v2 prev2 first2 pg2 := by
  rw [hv, hp, hf, hg]

theorem checkEventErrors_deterministic_witness :
    checkEventErrors evZero evZero evFirstPending 3 =
      checkEventErrors evZero evZero evFirstPending 3 :=
  checkEventErrors_deterministic evZero evZero evFirstPending evZero evZero evFirstPending
    3 3 rfl rfl rfl rfl

theorem find?_range'_eq_some (p : ℕ → Bool) (k : ℕ) (hk : p k = true) :
    ∀ (n a : ℕ), a ≤ k → k < a + n → (∀ m, a ≤ m → m < k → p m = false) →
      (List.range' a n).find? p = some k := by
  intro n
  induction n with
  | zero => intro a h1 h2 _; omega
  | succ n ih =>
    intro a h1 h2 hmin
    rw [List.range'_succ]
    rcases Nat.eq_or_lt_of_le h1 with heq | hlt
    · subst heq
      rw [List.find?_cons_of_pos _ hk]
    · rw [List.find?_cons_of_neg _ (by simp [hmin a le_rfl hlt])]
      exact ih (a + 1) hlt (by omega) fun m hm1 hm2 => hmin m (by omega) hm2

theorem revRange_succ (b : ℕ) :
    (List.range' 1 (b + 1)).reverse = (b + 1) :: (List.range' 1 b).reverse := by
  rw [List.range'_concat, List.reverse_append]
  norm_num
  omega

theorem find?_revRange_eq_some (p : ℕ → Bool) (j : ℕ) (hj : p j = true) (hj1 : 1 ≤ j) :
    ∀ b, j ≤ b → (∀ m, j < m → m ≤ b → p m = false) →
      (List.range' 1 b).reverse.find? p = some j := by
  intro b
  induction b with
  | zero => intro h1 _; omega
  | succ b ih =>
    intro h1 hmax
    rw [revRange_succ]
    rcases Nat.eq_or_lt_of_le h1 with heq | hlt
    · subst heq
      rw [List.find?_cons_of_pos _ hj]
    · rw [List.find?_cons_of_neg _ (by simp [hmax (b + 1) (by omega) le_rfl])]
      exact ih (by omega) fun m hm1 hm2 => hmax m hm1 (by omega)

/-- C2 (amended): for an in-range index whose bad-scaler flag is set, and
parallel tables of equal lengths, InterpTime returns the arithmetic mean
of the time of the nearest good entry strictly after the index and the
time of the nearest good entry strictly before it, PROVIDED that nearest
earlier good entry has index at least 1 and a later good entry exists:
the backward loop of the source stops before index 0, so index 0 is never
used as the earlier bound. -/
theorem interpTime_mean (times entries : List ℚ) (bad : List Bool) (entry j k : ℕ)
    (hl1 : times.length = entries.length) (hl2 : times.length = bad.length)
    (hbad : bad.getD entry true = true)
    (hj1 : 1 ≤ j) (hj2 : j < entry) (hjp : bad.getD j true = false)
    (hjnear : ∀ m, j < m → m < entry → bad.getD m true = true)
    (hk1 : entry < k) (hk2 : k < times.length) (hkp : bad.getD k true = false)
    (hknear : ∀ m, entry < m → m < k → bad.getD m true = true) :
    InterpTime entry times entries bad = (times.getD k 0 + times.getD j 0) / 2 := by
  have hup : scanUpper times bad entry entries.length = times.getD k 0 := by
    have hfind := find?_range'_eq_some (fun i => bad.getD i true == false) k
      (by show (bad.getD k true == false) = true; rw [hkp]; rfl)
      (entries.length - entry) entry (by omega) (by omega)
      (fun m hm1 hm2 => by
        show (bad.getD m true == false) = false
        rcases Nat.eq_or_lt_of_le hm1 with he | hl
        · rw [← he, hbad]
          rfl
        · rw [hknear m hl hm2]
          rfl)
    unfold scanUpper
    rw [hfind]
  have hlo : scanLower times bad entry = times.getD j 0 := by
    have hfind := find?_revRange_eq_some (fun i => bad.getD i true == false) j
      (by show (bad.getD j true == false) = true; rw [hjp]; rfl) hj1 entry (by omega)
      (fun m hm1 hm2 => by
        show (bad.getD m true == false) = false
        rcases Nat.eq_or_lt_of_le hm2 with he | hl
        · rw [he, hbad]
          rfl
        · rw [hjnear m hm1 hl]
          rfl)
    unfold scanLower
    rw [hfind]
  unfold InterpTime
  rw [if_neg (by omega), if_neg (by rw [hbad]; decide), hup, hlo]

theorem interpTime_mean_witness :
    InterpTime 2 [5, 10, 99, 20] [0, 1, 2, 3] [false, false, true, false] = (20 + 10) / 2 :=
  interpTime_mean [5, 10, 99, 20] [0, 1, 2, 3] [false, false, true, false] 2 1 3
    (by decide) (by decide) (by decide) (by decide) (by decide) (by decide)
    (fun m h1 h2 => absurd h2 (by omega)) (by decide) (by decide) (by decide)
    (fun m h1 h2 => absurd h2 (by omega))

/-- C2 counterexample: at entry 1 of a three-entry table whose only good
entries are the indices 0 and 2, the nearest good timestamps around the
bad entry are 10 (index 0) and 20 (index 2) with arithmetic mean 15, but
InterpTime returns 10: the backward loop never reaches index 0, so the
lower bound stays 0 and the result is (20 + 0) / 2. -/
theorem interpTime_claim_cx :
    InterpTime 1 [10, 99, 20] [0, 1, 2] [false, true, false] = 10 ∧
    ((10 : ℚ) + 20) / 2 = 15 ∧ (10 : ℚ) ≠ 15 := by
  refine ⟨?_, by norm_num, by norm_num⟩
  norm_num [InterpTime, scanUpper, scanLower, List.range', List.find?]

/-- C3 counterexample: the hit vector with both bottom and both top
planes hit and no lateral plane hit sets CoinType slot 2 under passing
cuts, although no lateral inner-outer pair is hit, refuting the claim
that slot 2 requires a lateral pair. -/
theorem coinType_sideBottom_cx :
    coinType true true ptTopBottom 2 = true ∧ lateralPairHit ptTopBottom = false := by
  decide

/-- C3 (amended): with both cuts passing, CoinType slot 2 (side plus
bottom) is set exactly when both bottom planes are hit and at least one
of the five fully hit inner-outer pairs exists: top, north, south, west
or east; the source includes the top pair 2,3 in the disjunction, so a
fully hit top pair qualifies without any lateral pair. -/
theorem coinType_sideBottom_iff (tc ec : Bool) (pt : Fin 12 → Bool)
    (h1 : tc = true) (h2 : ec = true) :
    coinType tc ec pt 2 = true ↔
      (pt 0 = true ∧ pt 1 = true ∧
        ((pt 2 = true ∧ pt 3 = true) ∨ lateralPairHit pt = true)) := by
  subst h1 h2
  simp only [coinType, ctSideBottom, lateralPairHit]
  norm_num
  tauto

theorem coinType_sideBottom_iff_witness :
    coinType true true ptTopBottom 2 = true ↔
      (ptTopBottom 0 = true ∧ ptTopBottom 1 = true ∧
        ((ptTopBottom 2 = true ∧ ptTopBottom 3 = true) ∨
          lateralPairHit ptTopBottom = true)) :=
  coinType_sideBottom_iff true true ptTopBottom rfl rfl

/-- C9: the energy cut is set exactly when at least two distinct channels
have amplitude strictly above 500, and the result never depends on the
calibrated per-channel thresholds. -/
theorem energyCut_iff (swThresh qdc : Fin 32 → ℤ) :
    (energyCut swThresh qdc = true ↔
      ∃ q1 q2 : Fin 32, q1 ≠ q2 ∧ 500 < qdc q1 ∧ 500 < qdc q2) ∧
    (∀ swThresh2 : Fin 32 → ℤ, energyCut swThresh qdc = energyCut swThresh2 qdc) := by
  constructor
  · have h2 : (2 ≤ (Finset.univ.filter fun q : Fin 32 => 500 < qdc q).card) ↔
        (1 < (Finset.univ.filter fun q : Fin 32 => 500 < qdc q).card) := by omega
    rw [energyCut, decide_eq_true_eq, h2, Finset.one_lt_card]
    constructor
    · rintro ⟨a, ha, b, hb, hab⟩
      rw [Finset.mem_filter] at ha hb
      exact ⟨a, b, hab, ha.2, hb.2⟩
    · rintro ⟨a, b, hab, ha, hb⟩
      exact ⟨a, Finset.mem_filter.mpr ⟨Finset.mem_univ a, ha⟩,
        b, Finset.mem_filter.mpr ⟨Finset.mem_univ b, hb⟩, hab⟩
  · intro swThresh2
    rfl

/-- C7 counterexample: with a derived period of 10 seconds (exceeding 9)
and exactly 3 qualifying simple-count events, the source takes the else
branch: the period becomes the 9999 sentinel and the bad flag is raised,
not duration over 3 as the claim requires. -/
theorem adjustLEDPeriod_cx :
    adjustLEDPeriod 10 200 3 100 false = ⟨9999, true⟩ ∧ (100 : ℚ) / 3 ≠ 9999 := by
  constructor
  · unfold adjustLEDPeriod
    rw [if_pos (Or.inl (by norm_num)), if_neg (by omega)]
  · norm_num

/-- C7 (amended): for a run whose derived period exceeds 9 seconds or
whose entry count is below 100, the period is recomputed as duration over
simpleLEDCount when MORE than 3 qualifying simple-count events exist (the
source tests simpleLEDCount strictly greater than 3), and otherwise the
period is set to the 9999 sentinel and the bad-frequency flag raised. -/
theorem adjustLEDPeriod_spec (period duration : ℚ) (vEntries cnt : ℤ) (bad : Bool)
    (h : 9 < period ∨ vEntries < 100) :
    (3 < cnt → adjustLEDPeriod period vEntries cnt duration bad =
      ⟨duration / (cnt : ℚ), bad⟩) ∧
    (cnt ≤ 3 → adjustLEDPeriod period vEntries cnt duration bad = ⟨9999, true⟩) := by
  unfold adjustLEDPeriod
  rw [if_pos h]
  constructor
  · intro hc
    rw [if_pos hc]
  · intro hc
    rw [if_neg (by omega)]

theorem adjustLEDPeriod_spec_witness :
    adjustLEDPeriod 10 200 4 100 false = ⟨100 / ((4 : ℤ) : ℚ), false⟩ :=
  (adjustLEDPeriod_spec 10 100 200 4 false (Or.inl (by norm_num))).1 (by norm_num)

/-- C10: for channel indices 0..31 PanelMap returns a plane index in
0..11, and the fallthrough sentinel -1 is returned exactly for indices
outside 0..31. -/
theorem panelMap_in (i : ℤ) (h0 : 0 ≤ i) (h31 : i ≤ 31) :
    0 ≤ panelMap i ∧ panelMap i ≤ 11 := by
  interval_cases i <;> decide

theorem panelMap_out (i : ℤ) (h : i < 0 ∨ 31 < i) : panelMap i = -1 := by
  unfold panelMap
  iterate 32 rw [if_neg (by omega)]

theorem panelMap_range (i : ℤ) :
    (0 ≤ i ∧ i ≤ 31 → 0 ≤ panelMap i ∧ panelMap i ≤ 11) ∧
    (panelMap i = -1 ↔ i < 0 ∨ 31 < i) := by
  refine ⟨fun h => panelMap_in i h.1 h.2, ?_, ?_⟩
  · intro heq
    by_contra hc
    push_neg at hc
    have hin := panelMap_in i (by omega) (by omega)
    omega
  · exact panelMap_out i

theorem panelMap_range_witness :
    0 ≤ panelMap 5 ∧ panelMap 5 ≤ 11 :=
  (panelMap_range 5).1 ⟨by norm_num, by norm_num⟩

theorem maxBinFold_go (cnt : ℕ → ℕ) :
    ∀ (l : List ℕ) (m0 : ℕ),
      ∃ m, l.foldl (maxBinStep cnt) (some (m0, cnt m0)) = some (m, cnt m) ∧
        (m = m0 ∨ m ∈ l) ∧ cnt m0 ≤ cnt m ∧ ∀ b ∈ l, cnt b ≤ cnt m := by
  intro l
  induction l with
  | nil =>
    intro m0
    exact ⟨m0, rfl, Or.inl rfl, le_rfl, by simp⟩
  | cons b l ih =>
    intro m0
    rw [List.foldl_cons]
    by_cases hb : cnt m0 < cnt b
    · rw [show maxBinStep cnt (some (m0, cnt m0)) b = some (b, cnt b) from by
        simp [maxBinStep, hb]]
      obtain ⟨m, hm1, hm2, hm3, hm4⟩ := ih b
      refine ⟨m, hm1, ?_, le_trans hb.le hm3, ?_⟩
      · rcases hm2 with h | h
        · exact Or.inr (by simp [h])
        · exact Or.inr (by simp [h])
      · intro x hx
        rcases List.mem_cons.mp hx with h | h
        · exact h ▸ hm3
        · exact hm4 x h
    · rw [show maxBinStep cnt (some (m0, cnt m0)) b = some (m0, cnt m0) from by
        simp [maxBinStep, hb]]
      obtain ⟨m, hm1, hm2, hm3, hm4⟩ := ih m0
      refine ⟨m, hm1, ?_, hm3, ?_⟩
      · rcases hm2 with h | h
        · exact Or.inl h
        · exact Or.inr (by simp [h])
      · intro x hx
        rcases List.mem_cons.mp hx with h | h
        · subst h
          exact le_trans (Nat.le_of_not_lt hb) hm3
        · exact hm4 x h

theorem maxBinFold_spec (cnt : ℕ → ℕ) (b : ℕ) (l : List ℕ) :
    ∃ m, maxBinFold cnt (b :: l) = some (m, cnt m) ∧ m ∈ b :: l ∧
      ∀ x ∈ b :: l, cnt x ≤ cnt m := by
  unfold maxBinFold
  rw [List.foldl_cons, show maxBinStep cnt none b = some (b, cnt b) from rfl]
  obtain ⟨m, hm1, hm2, hm3, hm4⟩ := maxBinFold_go cnt l b
  refine ⟨m, hm1, ?_, ?_⟩
  · rcases hm2 with h | h
    · simp [h]
    · simp [h]
  · intro x hx
    rcases List.mem_cons.mp hx with h | h
    · exact h ▸ hm3
    · exact hm4 x h

theorem getMaximumBin_spec (cnt : ℕ → ℕ) (lo hi : ℕ) (hle : lo ≤ hi) :
    ∃ m, lo ≤ m ∧ m ≤ hi ∧ (∀ b, lo ≤ b → b ≤ hi → cnt b ≤ cnt m) ∧
      getMaximumBin cnt lo hi = m := by
  have hrange : List.range' lo (hi + 1 - lo) = lo :: List.range' (lo + 1) (hi - lo) := by
    rw [show hi + 1 - lo = (hi - lo) + 1 from by omega, List.range'_succ]
  obtain ⟨m, hm1, hm2, hm3⟩ := maxBinFold_spec cnt lo (List.range' (lo + 1) (hi - lo))
  have hmem : ∀ x, x ∈ lo :: List.range' (lo + 1) (hi - lo) ↔ (lo ≤ x ∧ x ≤ hi) := by
    intro x
    rw [List.mem_cons, List.mem_range'_1]
    omega
  refine ⟨m, ((hmem m).mp hm2).1, ((hmem m).mp hm2).2, ?_, ?_⟩
  · intro b hb1 hb2
    exact hm3 b ((hmem b).mpr ⟨hb1, hb2⟩)
  · show (match maxBinFold cnt (List.range' lo (hi + 1 - lo)) with
      | some (mb, _) => mb
      | none => 0) = m
    rw [hrange, hm1]

theorem findFirstBinAbove_none (cnt : ℕ → ℕ) (h : ∀ a < 500, cnt a ≤ 1) :
    findFirstBinAbove cnt = none := by
  unfold findFirstBinAbove
  rw [List.find?_eq_none]
  intro x hx
  simp only [List.mem_range] at hx
  simp only [decide_eq_true_eq]
  have := h x hx
  omega

theorem findFirstBinAbove_some (cnt : ℕ → ℕ) (a : ℕ) (ha : a < 500) (h1 : 1 < cnt a)
    (hmin : ∀ b < a, cnt b ≤ 1) :
    findFirstBinAbove cnt = some a := by
  unfold findFirstBinAbove
  rw [List.range_eq_range']
  exact find?_range'_eq_some _ a (decide_eq_true h1) 500 0 (Nat.zero_le a) (by omega)
    fun m hm1 hm2 => decide_eq_false (by have := hmin m hm2; omega)

/-- C6: FindPanelThreshold returns 9999 when the run-era channel-disable
rule applies (run above 45000000 and panel above 23); otherwise -1 when no
amplitude bin count exceeds the noise floor of 1; otherwise a modal bin of
the window from 10 bins below to 50 bins above the first bin over the
noise floor (clamped to the 500-bin axis), plus exactly 35, so the result
is at least the pedestal-mode position. -/
theorem findPanelThreshold_spec (cnt : ℕ → ℕ) (panel runNum : ℤ) :
    (45000000 < runNum ∧ 23 < panel → FindPanelThreshold cnt 35 panel runNum = 9999) ∧
    (¬(45000000 < runNum ∧ 23 < panel) → (∀ a < 500, cnt a ≤ 1) →
      FindPanelThreshold cnt 35 panel runNum = -1) ∧
    (∀ a, ¬(45000000 < runNum ∧ 23 < panel) → a < 500 → 1 < cnt a →
      (∀ b < a, cnt b ≤ 1) →
      ∃ m, a - 10 ≤ m ∧ m ≤ min (a + 50) 499 ∧
        (∀ b, a - 10 ≤ b → b ≤ min (a + 50) 499 → cnt b ≤ cnt m) ∧
        FindPanelThreshold cnt 35 panel runNum = (m : ℤ) + 35 ∧
        (m : ℤ) ≤ FindPanelThreshold cnt 35 panel runNum) := by
  refine ⟨?_, ?_, ?_⟩
  · intro h
    unfold FindPanelThreshold
    rw [if_pos h]
  · intro h hall
    unfold FindPanelThreshold
    rw [if_neg h, findFirstBinAbove_none cnt hall]
  · intro a h ha h1 hmin
    obtain ⟨m, hm1, hm2, hm3, hm4⟩ := getMaximumBin_spec cnt (a - 10) (min (a + 50) 499)
      (by omega)
    have hval : FindPanelThreshold cnt 35 panel runNum = (m : ℤ) + 35 := by
      unfold FindPanelThreshold
      rw [if_neg h, findFirstBinAbove_some cnt a ha h1 hmin]
      show ⌊(getMaximumBin cnt (a - 10) (min (a + 50) 499) : ℚ) + 1 / 2 + ((35 : ℤ) : ℚ)⌋
        = (m : ℤ) + 35
      rw [hm4, Int.floor_eq_iff]
      constructor
      · push_cast
        linarith
      · push_cast
        linarith
    exact ⟨m, hm1, hm2, hm3, hval, by rw [hval]; omega⟩

theorem findPanelThreshold_spec_witness :
    ∃ m, 40 - 10 ≤ m ∧ m ≤ min (40 + 50) 499 ∧
      (∀ b, 40 - 10 ≤ b → b ≤ min (40 + 50) 499 → cntEx b ≤ cntEx m) ∧
      FindPanelThreshold cntEx 35 0 1000 = (m : ℤ) + 35 ∧
      (m : ℤ) ≤ FindPanelThreshold cntEx 35 0 1000 :=
  (findPanelThreshold_spec cntEx 0 1000).2.2 40 (by decide) (by decide) (by decide)
    (by decide)
